import Mathlib

/-!
Shallow embedding of the partition-aware routing core of the OBKV table
client (`src/client/table_client.rs`, with `src/location/part_func_type.rs`),
together with proofs about it.

The embedded functions follow the Rust source line by line.  State held in
`ObTableClientInner`'s maps is modelled as association lists; network and
catalog collaborators that live outside the embedded files (the location
loader, the partition descriptors' `get_part_id` / `get_part_ids`, the
per-table backend handles) are passed in as explicit function arguments, so
every embedded function is a pure function of its inputs.
-/

set_option autoImplicit false

/-- Row-key values (`serde_obkv::value::Value`).  The routing code treats
them as opaque payloads that are only ever handed to partition descriptors,
so an integer carrier is sufficient. -/
abbrev Value := Int

/-- Error codes of `error::CommonErrCode` that the embedded code constructs
or inspects (the error enum itself lives in `src/error.rs`, outside the
embedded files; the codes below are exactly the ones `table_client.rs`
names). -/
inductive ResultCodes where
  | OB_SUCCESS
  | OB_INVALID_PARTITION
  | otherCode (c : Int)
  deriving DecidableEq, Repr

/-- Modelled from the spec: `ResultCodes::from_i32` lives outside the
embedded files; the spec only fixes that `OB_SUCCESS` is the success code.
Nonzero codes other than the ones the client names are kept symbolic. -/
def ResultCodes.from_i32 (c : Int) : ResultCodes :=
  if c = 0 then ResultCodes.OB_SUCCESS else ResultCodes.otherCode c

inductive CommonErrCode where
  | NotFound
  | PartitionError
  | Lock
  | NotInitialized
  | AlreadyClosed
  | ObException (code : ResultCodes)
  deriving DecidableEq, Repr

/-- Errors of `error::Error`.  `Common` mirrors `Error::Common(code, msg)`,
the only form `table_client.rs` constructs.  `abstractErr` stands for errors
produced by the abstracted collaborators (network, codec); it carries its
own retry/refresh classification, since that classification lives in
`src/error.rs` outside the embedded files. -/
inductive Error where
  | Common (code : CommonErrCode) (msg : String)
  | abstractErr (needRetry : Bool) (needRefreshTable : Bool) (tag : Nat)
  deriving DecidableEq, Repr

/-- Modelled from the spec: error classification (`need_retry`) is defined
in `src/error.rs`, outside the embedded files; abstract errors carry their
flag, and client-constructed `Common` errors are treated as not retryable.
No theorem below depends on this choice. -/
def Error.need_retry : Error → Bool
  | Error.Common _ _ => false
  | Error.abstractErr r _ _ => r

/-- Modelled from the spec: `need_refresh_table` classification from
`src/error.rs`. -/
def Error.need_refresh_table : Error → Bool
  | Error.Common _ _ => false
  | Error.abstractErr _ r _ => r

/-- Partition level (`location::ObPartitionLevel`). -/
inductive ObPartitionLevel where
  | Zero
  | One
  | Two
  | Unknown
  deriving DecidableEq, Repr

/-- Modelled from the spec: a partition descriptor
(`location::part::ObPartDesc`, outside the embedded files) is abstracted by
its point resolution `get_part_id(row_key)` and range resolution
`get_part_ids(start, start_inclusive, end, end_inclusive)`. -/
structure ObPartDesc where
  getPartId : List Value → Except Error Int
  getPartIds : List Value → Bool → List Value → Bool → Except Error (List Int)

/-- Partition info of a table entry (level, first-part descriptor, optional
sub-part descriptor), per the spec's data model. -/
structure ObPartitionInfo where
  level : ObPartitionLevel
  firstPartDesc : Option ObPartDesc
  subPartDesc : Option ObPartDesc

/-- Replica location, abstracted to its address identity (the routing code
only ever forwards it). -/
structure ReplicaLocation where
  addr : Nat
  deriving DecidableEq, Repr

/-- Partition location: the replica set of one partition, of which the code
uses only `leader()`. -/
structure ObPartitionLocation where
  leader : Option ReplicaLocation

/-- Modelled from the spec: `location::TableEntry` lives outside the
embedded files.  The fields are exactly the accessors `table_client.rs`
calls: `is_partition_table()`, `partition_info()`, the row-key element map
set by `set_row_key_element`, and the partition-location lookup
`get_partition_location_with_part_id`. -/
structure TableEntry where
  isPartitionTable : Bool
  partitionInfo : Option ObPartitionInfo
  rowKeyElement : List (String × Int)
  getPartLocation : Int → Option ObPartitionLocation

/-- Modelled from the spec: `TableEntry::is_partition_level(l)` compares the
entry's partition level with `l`; an entry without partition info is at
level `Zero` (the spec's level-zero/unpartitioned case). -/
def TableEntry.isPartitionLevel (e : TableEntry) (l : ObPartitionLevel) : Bool :=
  match e.partitionInfo with
  | some info => info.level = l
  | none => l = ObPartitionLevel.Zero

/-- Modelled from the spec: `ob_part_constants::PART_ID_SHIFT`, a constant
fixed by the server protocol (first-part id shift of the two-level partition
id encoding). -/
def PART_ID_SHIFT : Nat := 32

/-- Modelled from the spec: `ob_part_constants::MASK`, the protocol-fixed
marker bits or-ed onto two-level partition ids.  No theorem below depends on
its value. -/
def MASK : Int := Int.lor (Int.ofNat (1 <<< 28)) (Int.ofNat (1 <<< 60))

/-- Two's-complement wrap-around of Rust `i64` arithmetic. -/
def wrap64 (x : Int) : Int := (x + 2 ^ 63) % 2 ^ 64 - 2 ^ 63

/-- The two-level partition id encoding computed at
`table_client.rs:809`: `(id1 << PART_ID_SHIFT) | id2 | MASK` on `i64`
(a left shift on `i64` discards the bits shifted out, hence the wrap). -/
def encodeLevelTwoPartId (id1 id2 : Int) : Int :=
  Int.lor (Int.lor (wrap64 (id1 * 2 ^ PART_ID_SHIFT)) id2) MASK

/-- Point partition resolution
`ObTableClientInner::get_partition` (`table_client.rs:731-828`). -/
def get_partition (e : TableEntry) (rowKey : List Value) : Except Error Int :=
  if ¬ e.isPartitionTable then Except.ok 0
  else
    match e.partitionInfo with
    | some partitionInfo =>
      match partitionInfo.level with
      | ObPartitionLevel.Zero => Except.ok 0
      | ObPartitionLevel.One =>
        match partitionInfo.firstPartDesc with
        | none =>
          Except.error (Error.Common CommonErrCode.PartitionError
            "get_partition: partition_info level is one, first_part_desc is none")
        | some firstPartDesc => firstPartDesc.getPartId rowKey
      | ObPartitionLevel.Two =>
        match partitionInfo.firstPartDesc, partitionInfo.subPartDesc with
        | none, none =>
          Except.error (Error.Common CommonErrCode.PartitionError
            "get_partition: partition_info level is two, first_part_desc is none, sub_part_desc is none")
        | some _, none =>
          Except.error (Error.Common CommonErrCode.PartitionError
            "get_partition: partition_info level is two, sub_part_desc is none")
        | none, some _ =>
          Except.error (Error.Common CommonErrCode.PartitionError
            "get_partition: partition_info level is two, first_part_desc is none")
        | some firstPartDesc, some subPartDesc =>
          match firstPartDesc.getPartId rowKey, subPartDesc.getPartId rowKey with
          | Except.error _, Except.error _ =>
            Except.error (Error.Common CommonErrCode.PartitionError
              "first_part_desc get_part_id err and sub_part_desc get_part_id err")
          | Except.error _, Except.ok _ =>
            Except.error (Error.Common CommonErrCode.PartitionError
              "first_part_desc get_part_id err ")
          | Except.ok _, Except.error _ =>
            Except.error (Error.Common CommonErrCode.PartitionError
              "sub_part_desc get_part_id err")
          | Except.ok id1, Except.ok id2 =>
            Except.ok (encodeLevelTwoPartId id1 id2)
      | ObPartitionLevel.Unknown =>
        Except.error (Error.Common CommonErrCode.PartitionError
          "get_partition error:ObPartitionLevel is Unknown")
    | none =>
      Except.error (Error.Common CommonErrCode.PartitionError
        "get_partition error:partition_info is None")

/-- Whether an `Except` result is an error. -/
def isErrorResult {α : Type} (r : Except Error α) : Bool :=
  match r with
  | Except.ok _ => false
  | Except.error _ => true

/-- Whether a result is a `PartitionError`. -/
def isPartitionError {α : Type} (r : Except Error α) : Bool :=
  match r with
  | Except.error (Error.Common CommonErrCode.PartitionError _) => true
  | _ => false

/-- Lookup in an association list by key (the model of the client's hash
maps; the first binding for a key is its value). -/
def lookupAssoc {α : Type} (l : List (String × α)) (k : String) : Option α :=
  match l with
  | [] => none
  | (k2, v) :: rest => if k2 = k then some v else lookupAssoc rest k

/-- Remove a key from an association-list map (`HashMap::remove`). -/
def removeKey {α : Type} (l : List (String × α)) (k : String) : List (String × α) :=
  l.filter (fun p => p.1 ≠ k)

/-- Insert or overwrite a key in an association-list map
(`HashMap::insert`). -/
def insertAssoc {α : Type} (l : List (String × α)) (k : String) (v : α) :
    List (String × α) :=
  (k, v) :: removeKey l k

/-- Helper of range resolution:
`ObTableClientInner::fill_partition_location_with_part_id`
(`table_client.rs:511-546`); instead of pushing into a `&mut Vec` it
returns the pushed pair. -/
def fill_partition_location_with_part_id (e : TableEntry) (partId : Int) :
    Except Error (Int × ReplicaLocation) :=
  match e.getPartLocation partId with
  | some location =>
    match location.leader with
    | some leader => Except.ok (partId, leader)
    | none =>
      Except.error (Error.Common CommonErrCode.NotFound
        "Leader not found for part_id")
  | none =>
    Except.error (Error.Common CommonErrCode.NotFound
      "Replica not found for part_id")

/-- Range partition resolution
`ObTableClientInner::get_partition_leaders` (`table_client.rs:548-606`). -/
def get_partition_leaders (e : TableEntry) (start : List Value)
    (startInclusive : Bool) (endKey : List Value) (endInclusive : Bool) :
    Except Error (List (Int × ReplicaLocation)) :=
  if ¬ e.isPartitionTable ∨ e.isPartitionLevel ObPartitionLevel.Zero then
    match fill_partition_location_with_part_id e 0 with
    | Except.ok r => Except.ok [r]
    | Except.error err => Except.error err
  else if e.isPartitionLevel ObPartitionLevel.One then
    match e.partitionInfo with
    | some info =>
      match info.firstPartDesc with
      | some partDesc =>
        match partDesc.getPartIds start startInclusive endKey endInclusive with
        | Except.ok partIds =>
          partIds.foldlM
            (fun acc partId =>
              match fill_partition_location_with_part_id e partId with
              | Except.ok r => Except.ok (acc ++ [r])
              | Except.error err => Except.error err)
            []
        | Except.error err => Except.error err
      | none =>
        Except.error (Error.Common CommonErrCode.NotFound
          "First part desc not found for table")
    | none =>
      Except.error (Error.Common CommonErrCode.NotFound
        "Partition info not found for table")
  else
    Except.error (Error.Common CommonErrCode.PartitionError
      "Unsupported partition level two right now, table=")

/-- Whether `pat` starts the character list `s`. -/
def startsWithChars : List Char → List Char → Bool
  | [], _ => true
  | _ :: _, [] => false
  | p :: ps, c :: cs => p = c && startsWithChars ps cs

/-- Whether `pat` occurs contiguously inside the character list. -/
def containsChars (pat : List Char) : List Char → Bool
  | [] => startsWithChars pat []
  | c :: cs => startsWithChars pat (c :: cs) || containsChars pat cs

/-- Whether `pat` occurs as a substring of `s` (used to state the spec's
"message contains ..." properties). -/
def containsSubstring (s pat : String) : Bool :=
  containsChars pat.toList s.toList

/-- One raw batch operation: the tuple
`(op_type, row_keys, columns, properties)` of
`ObTableBatchOperation::take_raw_ops`, of which the bucketing code reads
only `op.1`, the row key; the remainder is opaque. -/
structure BatchOp where
  rowKey : List Value
  payload : Nat

/-- The batch payload `ObTableBatchOperation` as used by
`execute_batch_once`: its raw operations, its atomic flag, and the
partition id / table name the client tags onto a sub-batch before
dispatch. -/
structure ObTableBatchOperation where
  rawOps : List BatchOp
  atomicOp : Bool
  partitionId : Int
  tableName : String

/-- Append `op` to the bucket of `partId`, creating the bucket at the end
when absent (`part_batch_ops.entry(partition_id).or_insert_with(new)
.add_op(op)`; the association list keeps first-seen key order where the
`HashMap` keeps none). -/
def addToBucket (buckets : List (Int × List BatchOp)) (partId : Int)
    (op : BatchOp) : List (Int × List BatchOp) :=
  match buckets with
  | [] => [(partId, [op])]
  | (k, ops) :: rest =>
    if k = partId then (k, ops ++ [op]) :: rest
    else (k, ops) :: addToBucket rest partId op

/-- The bucketing loop of `execute_batch_once` (`table_client.rs:1546-1553`):
resolve each raw op's partition and group ops by partition id. -/
def bucketOps (e : TableEntry) (ops : List BatchOp) :
    Except Error (List (Int × List BatchOp)) :=
  ops.foldlM
    (fun buckets op =>
      match get_partition e op.rowKey with
      | Except.ok partId => Except.ok (addToBucket buckets partId op)
      | Except.error err => Except.error err)
    []

/-- Batch dispatch `ObTableClient::execute_batch_once`
(`table_client.rs:1526-1609`).  `statusOk` is the outcome of
`check_status()`, `entryRes` the outcome of
`get_or_refresh_table_entry(table_name, false)`, and `execTable pid b`
abstracts `get_or_create_table` followed by `table.execute_batch` on the
sub-batch `b` for partition `pid` (results are opaque `TableOpResult`s,
modelled as `Nat`). -/
def execute_batch_once (statusOk : Except Error Unit)
    (entryRes : Except Error TableEntry)
    (execTable : Int → ObTableBatchOperation → Except Error (List Nat))
    (tableName : String) (batchOp : ObTableBatchOperation) :
    Except Error (List Nat) :=
  match statusOk with
  | Except.error err => Except.error err
  | Except.ok _ =>
    match entryRes with
    | Except.error err => Except.error err
    | Except.ok tableEntry =>
      match bucketOps tableEntry batchOp.rawOps with
      | Except.error err => Except.error err
      | Except.ok partBatchOps =>
        match partBatchOps with
        | [] => Except.ok []
        | [(partId, ops)] =>
          -- fast path: batch operations involving only one partition
          execTable partId
            { rawOps := ops, atomicOp := batchOp.atomicOp,
              partitionId := partId, tableName := tableName }
        | _ :: _ :: _ =>
          -- atomic now only support single partition
          if batchOp.atomicOp then
            Except.error (Error.Common
              (CommonErrCode.ObException ResultCodes.OB_INVALID_PARTITION)
              "batch operation is atomic, but involves multiple partitions")
          else
            -- slow path: dispatch each bucket on its own handle and flatten
            match
              partBatchOps.mapM
                (fun bucket =>
                  execTable bucket.1
                    { rawOps := bucket.2, atomicOp := false,
                      partitionId := bucket.1, tableName := tableName })
            with
            | Except.ok results => Except.ok results.flatten
            | Except.error err => Except.error err

/-- Backend server address; the roster code reads only its (signed)
priority, the rest is identity. -/
structure ObServerAddr where
  priority : Int
  tag : Nat
  deriving DecidableEq, Repr

/-- `MAX_PRIORITY` (`table_client.rs:91`). -/
def MAX_PRIORITY : Int := 50

/-- The smallest `isize` value, the fold seed of
`ServerRoster::reset_max_priority` (`isize::min_value()` on 64-bit). -/
def isizeMinValue : Int := -(2 ^ 63)

/-- `ServerRoster` (`table_client.rs:93-96`): the member list plus the
cached `max_priority`. -/
structure ServerRoster where
  maxPriority : Int
  roster : List ObServerAddr

/-- `ServerRoster::reset_max_priority` (`table_client.rs:144-159`). -/
def ServerRoster.reset_max_priority (s : ServerRoster) : ServerRoster :=
  if s.roster.isEmpty then { s with maxPriority := 0 }
  else
    { s with
      maxPriority :=
        s.roster.foldl
          (fun priority addr =>
            if addr.priority > priority then addr.priority else priority)
          isizeMinValue }

/-- `ServerRoster::upgrade_max_priority` (`table_client.rs:125-135`). -/
def ServerRoster.upgrade_max_priority (s : ServerRoster) (priority : Int) :
    ServerRoster :=
  if s.maxPriority ≥ priority then s
  else if priority = 0 then { s with maxPriority := 0 }
  else s.reset_max_priority

/-- `ServerRoster::downgrade_max_priority` (`table_client.rs:137-142`). -/
def ServerRoster.downgrade_max_priority (s : ServerRoster) (priority : Int) :
    ServerRoster :=
  if s.maxPriority ≤ priority then s
  else s.reset_max_priority

/-- `ServerRoster::reset` (`table_client.rs:120-123`). -/
def ServerRoster.reset (_s : ServerRoster) (members : List ObServerAddr) :
    ServerRoster :=
  { maxPriority := 0, roster := members }

/-- `ServerRoster::max_priority` (`table_client.rs:161-171`): the cached
value clamped to `[-MAX_PRIORITY, MAX_PRIORITY]`. -/
def ServerRoster.max_priority (s : ServerRoster) : Int :=
  if s.maxPriority < -MAX_PRIORITY then -MAX_PRIORITY
  else if s.maxPriority > MAX_PRIORITY then MAX_PRIORITY
  else s.maxPriority

/-- Client running mode (`RunningMode`, `table_client.rs:176-181`). -/
inductive RunningMode where
  | Normal
  | HBase
  deriving DecidableEq, Repr

/-- First-refresh half of `ObTableClientInner::refresh_table_entry`
(`table_client.rs:359-428`), the branch taken when no prior entry is
cached: `loaded` is the entry returned by
`location.load_table_entry_with_priority` (a network collaborator,
abstracted as an input), `registered` the outcome of
`table_row_key_element.get(table_name)`, and `prepare` abstracts
`TableEntry::prepare` (outside the embedded files). -/
def refresh_table_entry_load (mode : RunningMode)
    (registered : Option (List (String × Int)))
    (prepare : TableEntry → Except Error TableEntry)
    (loaded : TableEntry) : Except Error TableEntry :=
  if loaded.isPartitionTable then
    match mode with
    | RunningMode.Normal =>
      match registered with
      | some v => prepare { loaded with rowKeyElement := v }
      | none =>
        Except.error (Error.Common CommonErrCode.NotFound
          "Partition table must has row key element, table_key=")
    | RunningMode.HBase =>
      prepare { loaded with rowKeyElement := [("K", 0), ("Q", 1), ("T", 2)] }
  else Except.ok loaded

/-- One step of `ObTableClientInner::get_or_refresh_table_entry_with_blocking`
(`table_client.rs:874-1012`), modelled over the `table_locations` cache.
`needRefresh` abstracts the time-dependent `need_refresh_table_entry`
staleness test, `contended` says whether another thread currently holds
this table's per-table mutex (so `try_lock` fails), and `refreshLoop`
abstracts the retry loop that runs once the lock is held (it returns the
result together with the updated cache). -/
def get_or_refresh_table_entry_with_blocking
    (needRefresh : TableEntry → Bool)
    (refreshLoop : List (String × TableEntry) → String →
      Except Error TableEntry × List (String × TableEntry))
    (locations : List (String × TableEntry)) (contended : Bool)
    (tableName : String) (refresh blocking : Bool) :
    Except Error TableEntry × List (String × TableEntry) :=
  -- body run once the per-table mutex is held: double-check, then refresh
  let underLock : Except Error TableEntry × List (String × TableEntry) :=
    match lookupAssoc locations tableName with
    | some tableEntry =>
      if ¬ refresh ∨ ¬ needRefresh tableEntry then (Except.ok tableEntry, locations)
      else refreshLoop locations tableName
    | none => refreshLoop locations tableName
  let lockAndGo : Except Error TableEntry × List (String × TableEntry) :=
    if blocking then underLock
    else if contended then
      (Except.error (Error.Common CommonErrCode.Lock
        "fail to acquire table lock because some other thread is refreshing with the lock"),
       locations)
    else underLock
  match lookupAssoc locations tableName with
  | some tableEntry =>
    if ¬ refresh ∨ ¬ needRefresh tableEntry then (Except.ok tableEntry, locations)
    else lockAndGo
  | none => lockAndGo

/-- Response payload `ObTableOperationResult`, of which the retry loop reads
only `header().errorno()`. -/
structure ObTableOperationResult where
  errorno : Int
  payload : Nat
  deriving DecidableEq, Repr

/-- The retry loop of `ObTableClientInner::execute`
(`table_client.rs:1373-1441`), instrumented with the number of attempts
performed.  `once n` is the outcome of the `n`-th `execute_once` call
(`n` is the source's `retry_num`, starting at 1) and `onFail n e` the
outcome of `on_table_op_failure` after that attempt.  The loop body runs at
most `retryLimit` times because `continue` requires
`retry_num < rpc_retry_limit`; `fuel` bounds the recursion and is
unreachable once it exceeds the remaining budget. -/
def executeLoop (retryLimit : Nat)
    (once : Nat → Except Error ObTableOperationResult)
    (onFail : Nat → Error → Except Error Unit) :
    Nat → Nat → Except Error ObTableOperationResult × Nat
  | 0, retryNum =>
    -- out of fuel: cannot happen when fuel > retryLimit - retryNum
    (Except.error (Error.Common CommonErrCode.Lock "unreachable: out of fuel"),
     retryNum)
  | fuel + 1, retryNum =>
    let rn := retryNum + 1
    match once rn with
    | Except.ok result =>
      if ResultCodes.from_i32 result.errorno = ResultCodes.OB_SUCCESS then
        -- reset_table_failure, then return the result
        (Except.ok result, rn)
      else
        (Except.error (Error.Common
          (CommonErrCode.ObException (ResultCodes.from_i32 result.errorno))
          "OBKV server return exception"), rn)
    | Except.error e =>
      match onFail rn e with
      | Except.error _ =>
        -- on_table_op_failure failed: log and propagate the original error
        (Except.error e, rn)
      | Except.ok _ =>
        if rn < retryLimit ∧ e.need_retry then
          executeLoop retryLimit once onFail fuel rn
        else (Except.error e, rn)

/-- `ObTableClientInner::execute` (`table_client.rs:1373-1441`): run the
retry loop from `retry_num = 0` with enough fuel for the whole budget. -/
def execute (retryLimit : Nat)
    (once : Nat → Except Error ObTableOperationResult)
    (onFail : Nat → Error → Except Error Unit) :
    Except Error ObTableOperationResult × Nat :=
  executeLoop retryLimit once onFail (retryLimit + 1) 0

/-- The per-table maps of `ObTableClientInner` that `invalidate_table`
touches; mutexes, failure counters and thread pools are identified by
opaque tags. -/
structure ClientMaps where
  tableLocations : List (String × TableEntry)
  tableMutexs : List (String × Nat)
  tableRowKeyElement : List (String × List (String × Int))
  tableContinuousFailures : List (String × Nat)
  tableBatchOpThreadPools : List (String × Nat)

/-- `ObTableClientInner::invalidate_table` (`table_client.rs:1055-1071`):
look up the per-table mutex, returning unchanged when there is none;
otherwise remove the table's entry from all five maps. -/
def invalidate_table (s : ClientMaps) (tableName : String) : ClientMaps :=
  match lookupAssoc s.tableMutexs tableName with
  | none => s
  | some _ =>
    { tableLocations := removeKey s.tableLocations tableName
      tableMutexs := removeKey s.tableMutexs tableName
      tableRowKeyElement := removeKey s.tableRowKeyElement tableName
      tableContinuousFailures := removeKey s.tableContinuousFailures tableName
      tableBatchOpThreadPools := removeKey s.tableBatchOpThreadPools tableName }

/-- The ordinal map built by `add_row_key_element`
(`table_client.rs:1022-1024`): each column is inserted with its index. -/
def build_row_key_element (columns : List String) : List (String × Int) :=
  columns.enum.foldl
    (fun m ci => insertAssoc m ci.2 (Int.ofNat ci.1))
    []

/-- `ObTableClientInner::add_row_key_element` (`table_client.rs:1014-1030`)
acting on the `table_row_key_element` map. -/
def add_row_key_element (m : List (String × List (String × Int)))
    (tableName : String) (columns : List String) :
    List (String × List (String × Int)) :=
  match lookupAssoc m tableName with
  | some _ => m
  | none => insertAssoc m tableName (build_row_key_element columns)

/-- `ObTableClientInner::execute_sql` (`table_client.rs:1073-1090`):
`pick` is the outcome of `server_roster.peek_random_server()` (`none` iff
the roster is empty) and `locExec` abstracts
`location.execute_sql` on the chosen server. -/
def execute_sql (pick : Option ObServerAddr)
    (locExec : ObServerAddr → String → Except Error Unit) (sql : String) :
    Except Error Unit :=
  match pick with
  | some serverAddr => locExec serverAddr sql
  | none =>
    Except.error (Error.Common CommonErrCode.NotFound "active server not found")

/-- `ObTableClientInner::check_table_exists` (`table_client.rs:1092-1106`). -/
def check_table_exists (pick : Option ObServerAddr)
    (locExec : ObServerAddr → String → Except Error Unit)
    (tableName : String) : Except Error Bool :=
  match execute_sql pick locExec ("SELECT 1 FROM " ++ tableName ++ " LIMIT 1;") with
  | Except.ok _ => Except.ok true
  | Except.error _ => Except.ok false

/-- Keys currently present in a bucket list. -/
def bucketKeys (buckets : List (Int × List BatchOp)) : List Int :=
  buckets.map Prod.fst

theorem bucketKeys_addToBucket (buckets : List (Int × List BatchOp))
    (partId : Int) (op : BatchOp) :
    bucketKeys (addToBucket buckets partId op) =
      if partId ∈ bucketKeys buckets then bucketKeys buckets
      else bucketKeys buckets ++ [partId] := by
  induction buckets with
  | nil => simp [addToBucket, bucketKeys]
  | cons hd tl ih =>
    by_cases hk : hd.1 = partId
    · simp [addToBucket, bucketKeys, hk]
    · obtain ⟨k, ops⟩ := hd
      simp only at hk
      simp only [addToBucket, if_neg hk, bucketKeys, List.map_cons]
      simp only [bucketKeys] at ih
      rw [ih]
      by_cases hmem : partId ∈ List.map Prod.fst tl
      · simp [hmem, Ne.symm hk]
      · simp [hmem, Ne.symm hk]

/-- The bucket keys built by `addToBucket` stay pairwise distinct, so the
number of buckets is the number of distinct partition ids of the batch. -/
theorem nodup_bucketKeys_addToBucket (buckets : List (Int × List BatchOp))
    (partId : Int) (op : BatchOp)
    (h : (bucketKeys buckets).Nodup) :
    (bucketKeys (addToBucket buckets partId op)).Nodup := by
  rw [bucketKeys_addToBucket]
  by_cases hmem : partId ∈ bucketKeys buckets
  · simpa [hmem]
  · simpa [hmem] using List.Nodup.append h (List.nodup_singleton partId)
      (by simpa using hmem)

/-- C1: point partition resolution (`get_partition`) returns 0 when the
entry is not a partition table or its partition level is Zero; at level Two
with both descriptors present and both `get_part_id` calls succeeding with
ids `id1`/`id2` it returns `(id1 << PART_ID_SHIFT) | id2 | MASK`; and when
either descriptor is absent or either `get_part_id` call fails it returns a
`PartitionError`. -/
theorem get_partition_point_resolution_spec (e : TableEntry) (rk : List Value) :
    (e.isPartitionTable = false → get_partition e rk = Except.ok 0) ∧
    (∀ info, e.partitionInfo = some info → info.level = ObPartitionLevel.Zero →
      get_partition e rk = Except.ok 0) ∧
    (∀ info fd sd id1 id2, e.isPartitionTable = true →
      e.partitionInfo = some info → info.level = ObPartitionLevel.Two →
      info.firstPartDesc = some fd → info.subPartDesc = some sd →
      fd.getPartId rk = Except.ok id1 → sd.getPartId rk = Except.ok id2 →
      get_partition e rk = Except.ok (encodeLevelTwoPartId id1 id2)) ∧
    (∀ info, e.isPartitionTable = true →
      e.partitionInfo = some info → info.level = ObPartitionLevel.Two →
      (info.firstPartDesc = none ∨ info.subPartDesc = none) →
      isPartitionError (get_partition e rk) = true) ∧
    (∀ info fd sd, e.isPartitionTable = true →
      e.partitionInfo = some info → info.level = ObPartitionLevel.Two →
      info.firstPartDesc = some fd → info.subPartDesc = some sd →
      (isErrorResult (fd.getPartId rk) = true ∨
        isErrorResult (sd.getPartId rk) = true) →
      isPartitionError (get_partition e rk) = true) := by
  refine ⟨?_, ?_, ?_, ?_, ?_⟩
  · intro h
    simp [get_partition, h]
  · intro info hinfo hzero
    cases hb : e.isPartitionTable with
    | false => simp [get_partition, hb]
    | true => simp [get_partition, hb, hinfo, hzero]
  · intro info fd sd id1 id2 hb hinfo htwo hfd hsd h1 h2
    simp [get_partition, hb, hinfo, htwo, hfd, hsd, h1, h2]
  · intro info hb hinfo htwo hdesc
    rcases hdesc with hfd | hsd
    · cases hsd : info.subPartDesc with
      | none => simp [get_partition, isPartitionError, hb, hinfo, htwo, hfd, hsd]
      | some sd => simp [get_partition, isPartitionError, hb, hinfo, htwo, hfd, hsd]
    · cases hfd : info.firstPartDesc with
      | none => simp [get_partition, isPartitionError, hb, hinfo, htwo, hfd, hsd]
      | some fd => simp [get_partition, isPartitionError, hb, hinfo, htwo, hfd, hsd]
  · intro info fd sd hb hinfo htwo hfd hsd herr
    rcases herr with h1 | h1
    · cases hr1 : fd.getPartId rk with
      | ok v => simp [isErrorResult, hr1] at h1
      | error e1 =>
        cases hr2 : sd.getPartId rk with
        | ok v2 =>
          simp [get_partition, isPartitionError, hb, hinfo, htwo, hfd, hsd, hr1, hr2]
        | error e2 =>
          simp [get_partition, isPartitionError, hb, hinfo, htwo, hfd, hsd, hr1, hr2]
    · cases hr2 : sd.getPartId rk with
      | ok v => simp [isErrorResult, hr2] at h1
      | error e2 =>
        cases hr1 : fd.getPartId rk with
        | ok v1 =>
          simp [get_partition, isPartitionError, hb, hinfo, htwo, hfd, hsd, hr1, hr2]
        | error e1 =>
          simp [get_partition, isPartitionError, hb, hinfo, htwo, hfd, hsd, hr1, hr2]

/-- A constant partition descriptor used as a concrete test input. -/
def constPartDesc (n : Int) : ObPartDesc :=
  { getPartId := fun _ => Except.ok n
    getPartIds := fun _ _ _ _ => Except.ok [n] }

/-- A concrete level-two partitioned table entry whose first and sub
descriptors resolve every row key to 5 and 7. -/
def entryLevelTwo : TableEntry :=
  { isPartitionTable := true
    partitionInfo := some
      { level := ObPartitionLevel.Two
        firstPartDesc := some (constPartDesc 5)
        subPartDesc := some (constPartDesc 7) }
    rowKeyElement := []
    getPartLocation := fun _ => none }

/-- Witness for C1: at the concrete level-two entry both descriptors
succeed and `get_partition` returns the encoded id. -/
theorem get_partition_point_resolution_spec_witness :
    get_partition entryLevelTwo [1] = Except.ok (encodeLevelTwoPartId 5 7) :=
  (get_partition_point_resolution_spec entryLevelTwo [1]).2.2.1
    { level := ObPartitionLevel.Two
      firstPartDesc := some (constPartDesc 5)
      subPartDesc := some (constPartDesc 7) }
    (constPartDesc 5) (constPartDesc 7) 5 7 rfl rfl rfl rfl rfl rfl rfl

/-- C2: for a partitioned table entry at partition level Two, range
resolution (`get_partition_leaders`) fails with a `PartitionError` whose
message contains "Unsupported partition level two", for every start key,
end key and pair of inclusivity flags. -/
theorem get_partition_leaders_level_two_unsupported (e : TableEntry)
    (info : ObPartitionInfo) (hpt : e.isPartitionTable = true)
    (hpi : e.partitionInfo = some info)
    (hlv : info.level = ObPartitionLevel.Two) :
    ∀ (start : List Value) (si : Bool) (endKey : List Value) (ei : Bool),
      ∃ msg,
        get_partition_leaders e start si endKey ei =
          Except.error (Error.Common CommonErrCode.PartitionError msg) ∧
        containsSubstring msg "Unsupported partition level two" = true := by
  intro start si endKey ei
  refine ⟨"Unsupported partition level two right now, table=", ?_, by decide⟩
  simp [get_partition_leaders, TableEntry.isPartitionLevel, hpt, hpi, hlv]

/-- A concrete three-address partition-location table used to build test
entries whose partitions have leaders. -/
def threeLeaderLocations : Int → Option ObPartitionLocation :=
  fun partId =>
    if 0 ≤ partId ∧ partId < 3 then
      some { leader := some { addr := partId.toNat } }
    else none

/-- A concrete level-two partitioned entry with leaders, for range
resolution tests. -/
def entryLevelTwoWithLeaders : TableEntry :=
  { entryLevelTwo with getPartLocation := threeLeaderLocations }

/-- Witness for C2: the concrete level-two entry yields the unsupported
level-two `PartitionError` on a concrete scan range. -/
theorem get_partition_leaders_level_two_unsupported_witness :
    ∃ msg,
      get_partition_leaders entryLevelTwoWithLeaders [1] true [2] true =
        Except.error (Error.Common CommonErrCode.PartitionError msg) ∧
      containsSubstring msg "Unsupported partition level two" = true :=
  get_partition_leaders_level_two_unsupported entryLevelTwoWithLeaders
    { level := ObPartitionLevel.Two
      firstPartDesc := some (constPartDesc 5)
      subPartDesc := some (constPartDesc 7) }
    rfl rfl rfl [1] true [2] true

/-- C3: an atomic batch whose operations resolve to more than one distinct
partition id fails with `ObException(OB_INVALID_PARTITION)`; an atomic
batch whose operations all resolve to a single partition is dispatched to
that partition's handle without this error (buckets are keyed by distinct
partition ids, see `nodup_bucketKeys_addToBucket`). -/
theorem execute_batch_once_atomic_partitions (entry : TableEntry)
    (execTable : Int → ObTableBatchOperation → Except Error (List Nat))
    (tableName : String) (batchOp : ObTableBatchOperation)
    (buckets : List (Int × List BatchOp))
    (hbuckets : bucketOps entry batchOp.rawOps = Except.ok buckets)
    (hatomic : batchOp.atomicOp = true) :
    (1 < buckets.length → ∃ msg,
      execute_batch_once (Except.ok ()) (Except.ok entry) execTable tableName
          batchOp =
        Except.error (Error.Common
          (CommonErrCode.ObException ResultCodes.OB_INVALID_PARTITION) msg)) ∧
    (∀ partId ops, buckets = [(partId, ops)] →
      execute_batch_once (Except.ok ()) (Except.ok entry) execTable tableName
          batchOp =
        execTable partId
          { rawOps := ops, atomicOp := batchOp.atomicOp,
            partitionId := partId, tableName := tableName }) := by
  constructor
  · intro hlen
    rcases buckets with _ | ⟨b1, _ | ⟨b2, rest⟩⟩
    · simp at hlen
    · simp at hlen
    · exact ⟨"batch operation is atomic, but involves multiple partitions",
        by simp [execute_batch_once, hbuckets, hatomic]⟩
  · intro partId ops heq
    subst heq
    simp [execute_batch_once, hbuckets]

/-- A concrete level-one partitioned entry whose partition id is the first
row-key value. -/
def identityPartEntry : TableEntry :=
  { isPartitionTable := true
    partitionInfo := some
      { level := ObPartitionLevel.One
        firstPartDesc := some
          { getPartId := fun rk => Except.ok (rk.headD 0)
            getPartIds := fun _ _ _ _ => Except.ok [0] }
        subPartDesc := none }
    rowKeyElement := []
    getPartLocation := threeLeaderLocations }

/-- A concrete atomic batch whose two operations route to partitions 1 and
2. -/
def batchTwoParts : ObTableBatchOperation :=
  { rawOps := [{ rowKey := [1], payload := 0 }, { rowKey := [2], payload := 1 }]
    atomicOp := true
    partitionId := 0
    tableName := "" }

/-- A concrete atomic batch whose two operations both route to
partition 1. -/
def batchOnePart : ObTableBatchOperation :=
  { rawOps := [{ rowKey := [1], payload := 0 }, { rowKey := [1], payload := 1 }]
    atomicOp := true
    partitionId := 0
    tableName := "" }

/-- A concrete backend dispatch returning the payloads of the sub-batch. -/
def execTableConst : Int → ObTableBatchOperation → Except Error (List Nat) :=
  fun _ b => Except.ok (b.rawOps.map BatchOp.payload)

/-- Witness for C3: the two-partition atomic batch errs with
`OB_INVALID_PARTITION`, and the single-partition atomic batch is handed to
the backend dispatch. -/
theorem execute_batch_once_atomic_partitions_witness :
    (∃ msg,
      execute_batch_once (Except.ok ()) (Except.ok identityPartEntry)
          execTableConst "t1" batchTwoParts =
        Except.error (Error.Common
          (CommonErrCode.ObException ResultCodes.OB_INVALID_PARTITION) msg)) ∧
    execute_batch_once (Except.ok ()) (Except.ok identityPartEntry)
        execTableConst "t1" batchOnePart =
      execTableConst 1
        { rawOps := [{ rowKey := [1], payload := 0 }, { rowKey := [1], payload := 1 }]
          atomicOp := true, partitionId := 1, tableName := "t1" } :=
  ⟨(execute_batch_once_atomic_partitions identityPartEntry execTableConst "t1"
      batchTwoParts
      [(1, [{ rowKey := [1], payload := 0 }]), (2, [{ rowKey := [2], payload := 1 }])]
      rfl rfl).1 (by decide),
   (execute_batch_once_atomic_partitions identityPartEntry execTableConst "t1"
      batchOnePart
      [(1, [{ rowKey := [1], payload := 0 }, { rowKey := [1], payload := 1 }])]
      rfl rfl).2 1
      [{ rowKey := [1], payload := 0 }, { rowKey := [1], payload := 1 }] rfl⟩

/-- The property "m is the maximum of the members' priorities". -/
def isMaxOfMemberPriorities (m : Int) (l : List ObServerAddr) : Prop :=
  (∀ a ∈ l, a.priority ≤ m) ∧ ∃ a ∈ l, a.priority = m

/-- Characterization of the fold inside `reset_max_priority`: the result
dominates the seed and every member priority, and is either the seed or an
attained priority. -/
theorem reset_fold_spec (l : List ObServerAddr) (seed : Int) :
    seed ≤ l.foldl
        (fun priority addr =>
          if addr.priority > priority then addr.priority else priority) seed ∧
    (∀ a ∈ l, a.priority ≤ l.foldl
        (fun priority addr =>
          if addr.priority > priority then addr.priority else priority) seed) ∧
    (l.foldl
        (fun priority addr =>
          if addr.priority > priority then addr.priority else priority) seed
        = seed ∨
      ∃ a ∈ l, a.priority = l.foldl
        (fun priority addr =>
          if addr.priority > priority then addr.priority else priority) seed) := by
  induction l generalizing seed with
  | nil => simp
  | cons hd tl ih =>
    obtain ⟨h1, h2, h3⟩ := ih (if hd.priority > seed then hd.priority else seed)
    simp only [List.foldl_cons]
    have hseed : seed ≤ (if hd.priority > seed then hd.priority else seed) := by
      split <;> omega
    have hhd : hd.priority ≤ (if hd.priority > seed then hd.priority else seed) := by
      split <;> omega
    refine ⟨by omega, ?_, ?_⟩
    · intro a ha
      rcases List.mem_cons.mp ha with rfl | ha
      · omega
      · exact h2 a ha
    · rcases h3 with h3 | ⟨a, ha, hp⟩
      · by_cases hc : hd.priority > seed
        · right
          refine ⟨hd, List.mem_cons_self hd tl, ?_⟩
          rw [h3, if_pos hc]
        · left
          rw [h3, if_neg hc]
      · exact Or.inr ⟨a, List.mem_cons_of_mem hd ha, hp⟩

/-- When the roster is nonempty and all priorities are `isize` values, the
recomputed `max_priority` is the maximum of the members' priorities. -/
theorem reset_max_priority_is_members_max (s : ServerRoster)
    (hne : s.roster ≠ [])
    (hrange : ∀ a ∈ s.roster, isizeMinValue ≤ a.priority) :
    isMaxOfMemberPriorities s.reset_max_priority.maxPriority s.roster := by
  obtain ⟨h1, h2, h3⟩ := reset_fold_spec s.roster isizeMinValue
  have hempty : s.roster.isEmpty = false := by
    cases h : s.roster with
    | nil => exact absurd h hne
    | cons a l => simp
  unfold ServerRoster.reset_max_priority
  rw [hempty]
  simp only [Bool.false_eq_true, if_false]
  refine ⟨h2, ?_⟩
  rcases h3 with h3 | h3
  · -- the fold returned the seed: some member attains it by the range bound
    obtain ⟨a, ha⟩ := List.exists_mem_of_ne_nil s.roster hne
    refine ⟨a, ha, ?_⟩
    have hub := h2 a ha
    have hlb := hrange a ha
    omega
  · exact h3

/-- C4: `upgrade_max_priority(p)` leaves the cached `max_priority`
unchanged when the cached value is at least `p`, and otherwise recomputes
it as the maximum of the members' priorities, except that
`upgrade_max_priority(0)` then forces it to 0; `downgrade_max_priority(p)`
leaves the cached value unchanged when it is at most `p`, and otherwise
recomputes it as the maximum over all members. -/
theorem server_roster_priority_cache_spec (s : ServerRoster) (p : Int)
    (hrange : ∀ a ∈ s.roster, isizeMinValue ≤ a.priority) :
    (s.maxPriority ≥ p → s.upgrade_max_priority p = s) ∧
    (s.maxPriority < p → p = 0 →
      (s.upgrade_max_priority p).maxPriority = 0) ∧
    (s.maxPriority < p → p ≠ 0 → s.roster ≠ [] →
      isMaxOfMemberPriorities (s.upgrade_max_priority p).maxPriority
        s.roster) ∧
    (s.maxPriority ≤ p → s.downgrade_max_priority p = s) ∧
    (s.maxPriority > p → s.roster ≠ [] →
      isMaxOfMemberPriorities (s.downgrade_max_priority p).maxPriority
        s.roster) := by
  refine ⟨?_, ?_, ?_, ?_, ?_⟩
  · intro h
    unfold ServerRoster.upgrade_max_priority
    rw [if_pos h]
  · intro h hz
    unfold ServerRoster.upgrade_max_priority
    rw [if_neg (by omega), if_pos hz]
  · intro h hz hne
    unfold ServerRoster.upgrade_max_priority
    rw [if_neg (by omega), if_neg hz]
    exact reset_max_priority_is_members_max s hne hrange
  · intro h
    unfold ServerRoster.downgrade_max_priority
    rw [if_pos h]
  · intro h hne
    unfold ServerRoster.downgrade_max_priority
    rw [if_neg (by omega)]
    exact reset_max_priority_is_members_max s hne hrange

/-- A concrete two-member roster with a stale cached priority. -/
def rosterTwo : ServerRoster :=
  { maxPriority := 1
    roster := [{ priority := 3, tag := 0 }, { priority := -2, tag := 1 }] }

/-- Witness for C4: upgrading past the cached value recomputes the cache as
the members' maximum, and a downgrade at or above the cached value is a
no-op. -/
theorem server_roster_priority_cache_spec_witness :
    isMaxOfMemberPriorities
      ((rosterTwo.upgrade_max_priority 2).maxPriority) rosterTwo.roster ∧
    rosterTwo.downgrade_max_priority 1 = rosterTwo :=
  ⟨(server_roster_priority_cache_spec rosterTwo 2 (by decide)).2.2.1
      (by decide) (by decide) (by simp [rosterTwo]),
   (server_roster_priority_cache_spec rosterTwo 1 (by decide)).2.2.2.1
      (by decide)⟩

/-- A concrete partitioned entry as loaded by the locator, before any
row-key element is attached. -/
def loadedPartitionedEntry : TableEntry :=
  { isPartitionTable := true
    partitionInfo := some
      { level := ObPartitionLevel.One
        firstPartDesc := some (constPartDesc 0)
        subPartDesc := none }
    rowKeyElement := []
    getPartLocation := fun _ => none }

/-- Counterexample to C5: for a partitioned table in Normal mode with no
registered row-key element, the first refresh fails with a `NotFound`
error (`CommonErrCode::NotFound`, `table_client.rs:403`), not with a
`PartitionError` as the claim states. -/
theorem refresh_table_entry_missing_row_key_not_partition_error :
    refresh_table_entry_load RunningMode.Normal none Except.ok
        loadedPartitionedEntry =
      Except.error (Error.Common CommonErrCode.NotFound
        "Partition table must has row key element, table_key=") ∧
    isPartitionError
        (refresh_table_entry_load RunningMode.Normal none Except.ok
          loadedPartitionedEntry) = false :=
  ⟨rfl, rfl⟩

/-- C5 (amended): for a partitioned table in Normal running mode with no
registered row-key element, the first table-entry refresh fails with a
`NotFound` error reporting the missing row-key element; in HBase running
mode no registration is needed and the row-key element set on the entry
handed to `prepare` is exactly K=0, Q=1, T=2. -/
theorem refresh_table_entry_row_key_element_spec (loaded : TableEntry)
    (prepare : TableEntry → Except Error TableEntry)
    (hpt : loaded.isPartitionTable = true) :
    refresh_table_entry_load RunningMode.Normal none prepare loaded =
      Except.error (Error.Common CommonErrCode.NotFound
        "Partition table must has row key element, table_key=") ∧
    (∀ registered,
      refresh_table_entry_load RunningMode.HBase registered prepare loaded =
        prepare
          { loaded with rowKeyElement := [("K", 0), ("Q", 1), ("T", 2)] }) := by
  constructor
  · simp [refresh_table_entry_load, hpt]
  · intro registered
    simp [refresh_table_entry_load, hpt]

/-- Witness for C5 (amended): at the concrete loaded entry the Normal-mode
refresh errs with `NotFound` and the HBase-mode refresh hands `prepare` the
fixed K/Q/T map. -/
theorem refresh_table_entry_row_key_element_spec_witness :
    refresh_table_entry_load RunningMode.Normal none Except.ok
        loadedPartitionedEntry =
      Except.error (Error.Common CommonErrCode.NotFound
        "Partition table must has row key element, table_key=") ∧
    refresh_table_entry_load RunningMode.HBase none Except.ok
        loadedPartitionedEntry =
      Except.ok
        { loadedPartitionedEntry with
            rowKeyElement := [("K", 0), ("Q", 1), ("T", 2)] } :=
  ⟨(refresh_table_entry_row_key_element_spec loadedPartitionedEntry
      Except.ok rfl).1,
   (refresh_table_entry_row_key_element_spec loadedPartitionedEntry
      Except.ok rfl).2 none⟩

/-- C6: when a table has a cached entry that is due for refresh and another
thread holds that table's per-table mutex, the non-blocking variant
(`refresh=true`, `blocking=false`) returns a `Lock` error and leaves the
whole table-entry cache (this table's entry and every other table's)
unchanged. -/
theorem get_or_refresh_non_blocking_contended_lock_error
    (needRefresh : TableEntry → Bool)
    (refreshLoop : List (String × TableEntry) → String →
      Except Error TableEntry × List (String × TableEntry))
    (locations : List (String × TableEntry)) (tableName : String)
    (e : TableEntry)
    (hcached : lookupAssoc locations tableName = some e)
    (hstale : needRefresh e = true) :
    get_or_refresh_table_entry_with_blocking needRefresh refreshLoop
        locations true tableName true false =
      (Except.error (Error.Common CommonErrCode.Lock
        "fail to acquire table lock because some other thread is refreshing with the lock"),
       locations) := by
  simp [get_or_refresh_table_entry_with_blocking, hcached, hstale]

/-- A concrete two-table cache for the lock-contention witness. -/
def twoTableLocations : List (String × TableEntry) :=
  [("t1", entryLevelTwo), ("t2", identityPartEntry)]

/-- Witness for C6: with table `t1` cached, always-stale entries and a
contended mutex, the non-blocking call returns the `Lock` error and the
unchanged cache. -/
theorem get_or_refresh_non_blocking_contended_lock_error_witness :
    get_or_refresh_table_entry_with_blocking (fun _ => true)
        (fun locs _ => (Except.ok entryLevelTwo, locs)) twoTableLocations
        true "t1" true false =
      (Except.error (Error.Common CommonErrCode.Lock
        "fail to acquire table lock because some other thread is refreshing with the lock"),
       twoTableLocations) :=
  get_or_refresh_non_blocking_contended_lock_error (fun _ => true)
    (fun locs _ => (Except.ok entryLevelTwo, locs)) twoTableLocations "t1"
    entryLevelTwo rfl rfl

/-- C7: in the retry loop of `execute`, whenever the current attempt fails
with error `e` and the subsequent `on_table_op_failure` call itself
returns an error, the loop returns the original error `e` and performs no
further attempts (the instrumented attempt count stops at this attempt),
regardless of `e.need_retry()` and the remaining retry budget. -/
theorem execute_on_failure_error_propagates_original (retryLimit : Nat)
    (once : Nat → Except Error ObTableOperationResult)
    (onFail : Nat → Error → Except Error Unit)
    (fuel retryNum : Nat) (e f : Error)
    (honce : once (retryNum + 1) = Except.error e)
    (hfail : onFail (retryNum + 1) e = Except.error f) :
    executeLoop retryLimit once onFail (fuel + 1) retryNum =
      (Except.error e, retryNum + 1) := by
  simp [executeLoop, honce, hfail]

/-- Witness for C7: with a first attempt failing with a retryable error and
a failing failure handler, `execute` (the loop started at attempt 0 with
the full budget) returns the attempt's error after exactly one attempt,
despite a remaining budget of 9. -/
theorem execute_on_failure_error_propagates_original_witness :
    executeLoop 10
        (fun _ => Except.error (Error.abstractErr true false 42))
        (fun _ _ => Except.error (Error.abstractErr false false 7)) 10 0 =
      (Except.error (Error.abstractErr true false 42), 1) :=
  execute_on_failure_error_propagates_original 10
    (fun _ => Except.error (Error.abstractErr true false 42))
    (fun _ _ => Except.error (Error.abstractErr false false 7)) 9 0
    (Error.abstractErr true false 42) (Error.abstractErr false false 7)
    rfl rfl

theorem lookupAssoc_removeKey_self {α : Type} (l : List (String × α))
    (k : String) : lookupAssoc (removeKey l k) k = none := by
  induction l with
  | nil => rfl
  | cons hd tl ih =>
    by_cases h : hd.1 = k
    · simpa [removeKey, h] using ih
    · simpa [removeKey, lookupAssoc, h] using ih

theorem lookupAssoc_removeKey_other {α : Type} (l : List (String × α))
    (k k2 : String) (hne : k2 ≠ k) :
    lookupAssoc (removeKey l k) k2 = lookupAssoc l k2 := by
  induction l with
  | nil => rfl
  | cons hd tl ih =>
    by_cases h : hd.1 = k
    · rw [show removeKey (hd :: tl) k = removeKey tl k from by
        simp [removeKey, h], ih]
      have h2 : ¬ hd.1 = k2 := by
        rw [h]
        exact Ne.symm hne
      simp [lookupAssoc, h2]
    · rw [show removeKey (hd :: tl) k = hd :: removeKey tl k from by
        simp [removeKey, h]]
      by_cases h2 : hd.1 = k2
      · simp [lookupAssoc, h2]
      · simp [lookupAssoc, h2, ih]

theorem lookupAssoc_insertAssoc_self {α : Type} (l : List (String × α))
    (k : String) (v : α) : lookupAssoc (insertAssoc l k v) k = some v := by
  simp [insertAssoc, lookupAssoc]

/-- A concrete client state owning only a registered row-key element for
table `t` (as produced by `add_row_key_element` before any refresh, so no
per-table mutex exists yet). -/
def clientMapsRowKeyOnly : ClientMaps :=
  { tableLocations := []
    tableMutexs := []
    tableRowKeyElement := [("t", [("c", 0)])]
    tableContinuousFailures := []
    tableBatchOpThreadPools := [] }

/-- Counterexample to C8: when table `t` has no per-table mutex entry,
`invalidate_table` returns at `table_client.rs:1060` without removing
anything, so `t`'s row-key element map survives the call, contradicting
the claim that it is removed for every table name. -/
theorem invalidate_table_no_mutex_keeps_row_key_element :
    invalidate_table clientMapsRowKeyOnly "t" = clientMapsRowKeyOnly ∧
    lookupAssoc (invalidate_table clientMapsRowKeyOnly "t").tableRowKeyElement
        "t" = some [("c", 0)] :=
  ⟨rfl, rfl⟩

/-- C8 (amended): when table T has a per-table mutex entry,
`invalidate_table(T)` removes T's cached table entry, row-key element map,
continuous-failure counter, mutex entry and batch-op thread pool, leaving
every other table's entries in all five maps unchanged; when T has no
mutex entry, the call returns with every map unchanged. -/
theorem invalidate_table_spec (s : ClientMaps) (tableName : String) :
    (lookupAssoc s.tableMutexs tableName = none →
      invalidate_table s tableName = s) ∧
    (∀ m, lookupAssoc s.tableMutexs tableName = some m →
      lookupAssoc (invalidate_table s tableName).tableLocations tableName
          = none ∧
      lookupAssoc (invalidate_table s tableName).tableRowKeyElement tableName
          = none ∧
      lookupAssoc (invalidate_table s tableName).tableContinuousFailures
          tableName = none ∧
      lookupAssoc (invalidate_table s tableName).tableMutexs tableName
          = none ∧
      lookupAssoc (invalidate_table s tableName).tableBatchOpThreadPools
          tableName = none) ∧
    (∀ other, other ≠ tableName →
      lookupAssoc (invalidate_table s tableName).tableLocations other
          = lookupAssoc s.tableLocations other ∧
      lookupAssoc (invalidate_table s tableName).tableRowKeyElement other
          = lookupAssoc s.tableRowKeyElement other ∧
      lookupAssoc (invalidate_table s tableName).tableContinuousFailures
          other = lookupAssoc s.tableContinuousFailures other ∧
      lookupAssoc (invalidate_table s tableName).tableMutexs other
          = lookupAssoc s.tableMutexs other ∧
      lookupAssoc (invalidate_table s tableName).tableBatchOpThreadPools
          other = lookupAssoc s.tableBatchOpThreadPools other) := by
  refine ⟨?_, ?_, ?_⟩
  · intro h
    simp [invalidate_table, h]
  · intro m h
    simp [invalidate_table, h, lookupAssoc_removeKey_self]
  · intro other hne
    cases h : lookupAssoc s.tableMutexs tableName with
    | none => simp [invalidate_table, h]
    | some m =>
      simp [invalidate_table, h, lookupAssoc_removeKey_other _ _ _ hne]

/-- A concrete client state in which table `t` is fully populated (mutex
included) and table `u` also has entries. -/
def clientMapsTwoTables : ClientMaps :=
  { tableLocations := [("t", entryLevelTwo), ("u", identityPartEntry)]
    tableMutexs := [("t", 0), ("u", 1)]
    tableRowKeyElement := [("t", [("c", 0)]), ("u", [("d", 0)])]
    tableContinuousFailures := [("t", 2), ("u", 3)]
    tableBatchOpThreadPools := [("t", 4), ("u", 5)] }

/-- Witness for C8 (amended): invalidating `t` (which has a mutex entry)
clears all five of `t`'s entries and leaves `u`'s row-key element (and
mutex) untouched. -/
theorem invalidate_table_spec_witness :
    lookupAssoc (invalidate_table clientMapsTwoTables "t").tableRowKeyElement
        "t" = none ∧
    lookupAssoc (invalidate_table clientMapsTwoTables "t").tableMutexs "t"
        = none ∧
    lookupAssoc (invalidate_table clientMapsTwoTables "t").tableRowKeyElement
        "u" = lookupAssoc clientMapsTwoTables.tableRowKeyElement "u" ∧
    lookupAssoc (invalidate_table clientMapsTwoTables "t").tableMutexs "u"
        = lookupAssoc clientMapsTwoTables.tableMutexs "u" :=
  ⟨((invalidate_table_spec clientMapsTwoTables "t").2.1 0 rfl).2.1,
   ((invalidate_table_spec clientMapsTwoTables "t").2.1 0 rfl).2.2.2.1,
   ((invalidate_table_spec clientMapsTwoTables "t").2.2 "u"
      (by decide)).2.1,
   ((invalidate_table_spec clientMapsTwoTables "t").2.2 "u"
      (by decide)).2.2.2.1⟩

/-- Once a table is registered, `add_row_key_element` returns without
touching the map (`table_client.rs:1017-1019`). -/
theorem add_row_key_element_registered
    (m : List (String × List (String × Int))) (tableName : String)
    (cols : List String) (v : List (String × Int))
    (h : lookupAssoc m tableName = some v) :
    add_row_key_element m tableName cols = m := by
  simp [add_row_key_element, h]

/-- C9: registering a row-key element for a table is idempotent with
first-call-wins semantics: starting from a state in which T is
unregistered, a second `add_row_key_element(T, cols2)` call leaves the
stored ordinal mapping for T equal to the mapping built from `cols1`
(each column mapped to its index). -/
theorem add_row_key_element_first_call_wins
    (m : List (String × List (String × Int))) (tableName : String)
    (cols1 cols2 : List String)
    (hfresh : lookupAssoc m tableName = none) :
    lookupAssoc
        (add_row_key_element (add_row_key_element m tableName cols1)
          tableName cols2)
        tableName = some (build_row_key_element cols1) := by
  have hstored :
      lookupAssoc (add_row_key_element m tableName cols1) tableName =
        some (build_row_key_element cols1) := by
    simp [add_row_key_element, hfresh, lookupAssoc_insertAssoc_self]
  rw [add_row_key_element_registered _ _ _ _ hstored]
  exact hstored

/-- Witness for C9: registering `["a", "b"]` for a fresh table and then
`["x"]` leaves the mapping built from `["a", "b"]`. -/
theorem add_row_key_element_first_call_wins_witness :
    lookupAssoc
        (add_row_key_element (add_row_key_element [] "t" ["a", "b"]) "t"
          ["x"]) "t" = some (build_row_key_element ["a", "b"]) :=
  add_row_key_element_first_call_wins [] "t" ["a", "b"] ["x"] rfl

/-- C10: `check_table_exists` never returns an error: it returns
`Ok(true)` exactly when the probe SQL statement executes successfully and
`Ok(false)` on any `execute_sql` error, including the `NotFound` error
raised when the server roster is empty (`peek_random_server` returns
none), so an unreachable cluster is indistinguishable from an absent
table. -/
theorem check_table_exists_never_errors (pick : Option ObServerAddr)
    (locExec : ObServerAddr → String → Except Error Unit)
    (tableName : String) :
    isErrorResult (check_table_exists pick locExec tableName) = false ∧
    (∀ u,
      execute_sql pick locExec
          ("SELECT 1 FROM " ++ tableName ++ " LIMIT 1;") = Except.ok u →
      check_table_exists pick locExec tableName = Except.ok true) ∧
    (∀ err,
      execute_sql pick locExec
          ("SELECT 1 FROM " ++ tableName ++ " LIMIT 1;") = Except.error err →
      check_table_exists pick locExec tableName = Except.ok false) ∧
    (pick = none →
      check_table_exists pick locExec tableName = Except.ok false) := by
  refine ⟨?_, ?_, ?_, ?_⟩
  · cases hres : execute_sql pick locExec
        ("SELECT 1 FROM " ++ tableName ++ " LIMIT 1;") with
    | ok u => simp [check_table_exists, isErrorResult, hres]
    | error err => simp [check_table_exists, isErrorResult, hres]
  · intro u hres
    simp [check_table_exists, hres]
  · intro err hres
    simp [check_table_exists, hres]
  · intro hnone
    subst hnone
    simp [check_table_exists, execute_sql]

/-- Witness for C10: with an empty roster (`pick = none`) the probe errs
with `NotFound` yet `check_table_exists` returns `Ok(false)`, and with a
succeeding backend it returns `Ok(true)`. -/
theorem check_table_exists_never_errors_witness :
    check_table_exists none (fun _ _ => Except.ok ()) "t1" =
      Except.ok false ∧
    check_table_exists (some { priority := 0, tag := 0 })
        (fun _ _ => Except.ok ()) "t1" = Except.ok true :=
  ⟨(check_table_exists_never_errors none (fun _ _ => Except.ok ()) "t1").2.2.2
      rfl,
   (check_table_exists_never_errors (some { priority := 0, tag := 0 })
      (fun _ _ => Except.ok ()) "t1").2.1 () rfl⟩
